import Mathlib

/-!
Formal model of the `libhal-armcortex` Conan recipe (`conanfile.py`).

The recipe exposes three evaluation entry points:

* `requirements` — appends conditional package dependencies after the
  bootstrap helper has contributed its own list (the helper is external to
  this repository, so its contribution is taken as an input list);
* `package_info` — fills in the `cpp_info` record (library names, a CMake
  target-name property, and executable linker flags);
* `package_id` — deletes the two declared options from the package-identity
  option set.

All state touched by the recipe is per-invocation (`self.cpp_info`,
`self.info`, the dependency list), so each method is modelled as a pure
function from its inputs to the record it produces.
-/

namespace Conanfile

/-- Platform/toolchain settings supplied by the package manager:
`self.settings.os`, `self.settings.compiler`,
`str(self.settings.compiler.version)` and `str(self.settings.arch)`,
each modelled as a string. -/
structure Settings where
  os : String
  compiler : String
  compiler_version : String
  arch : String
  deriving Repr, DecidableEq

/-- The two boolean options declared in the recipe's `options` dict. -/
structure Options where
  use_libhal_exceptions : Bool
  use_picolibc : Bool
  deriving Repr, DecidableEq

/-- One `self.requires(ref, transitive_headers=...)` call: the reference
string passed and the `transitive_headers` keyword (default `False` when
the keyword is omitted). -/
structure Requires where
  ref : String
  transitive_headers : Bool
  deriving Repr, DecidableEq

/-- `containsSub needle hay` decides whether `needle` occurs as a
contiguous run inside `hay`. -/
def containsSub (needle : List Char) : List Char → Bool
  | [] => needle.isEmpty
  | c :: rest => needle.isPrefixOf (c :: rest) || containsSub needle rest

/-- Python's `sub in s` substring test, on the character lists. -/
def strContains (s sub : String) : Bool :=
  containsSub sub.data s.data

/-- `os.path.join(a, b)` (POSIX rules, as used on line 71): an absolute
second component replaces the first; otherwise the components are joined
with a separator unless one is already present. -/
def osPathJoin (a b : String) : String :=
  if b.data.head? = some '/' then b
  else if a.data = [] then b
  else if a.data.getLast? = some '/' then a ++ b
  else a ++ "/" ++ b

/-- The `self.requires(...)` calls issued by `requirements` itself
(lines 53-59): on baremetal + gcc, optionally `libhal-exceptions/[^1.0.0]`
with `transitive_headers=True`, then optionally
`"prebuilt-picolibc/" + str(self.settings.compiler.version)`. -/
def recipeRequires (s : Settings) (o : Options) : List Requires :=
  if s.os == "baremetal" && s.compiler == "gcc" then
    (if o.use_libhal_exceptions then
        [Requires.mk "libhal-exceptions/[^1.0.0]" true] else [])
      ++ (if o.use_picolibc then
        [Requires.mk ("prebuilt-picolibc/" ++ s.compiler_version) false] else [])
  else []

/-- `requirements` (lines 49-59): the bootstrap helper
`add_library_requirements` (external collaborator) contributes
`bootstrapReqs`, then the recipe appends its own conditional requires. -/
def requirements (bootstrapReqs : List Requires) (s : Settings) (o : Options) :
    List Requires :=
  bootstrapReqs ++ recipeRequires s o

/-- `requirements` re-expressed with an explicit error channel, statement by
statement in source order: no statement of the method raises, so every
branch ends in `Except.ok`. -/
def requirementsE (base : List Requires) (s : Settings) (o : Options) :
    Except String (List Requires) :=
  if s.os == "baremetal" && s.compiler == "gcc" then
    let reqs1 :=
      if o.use_libhal_exceptions then
        base ++ [Requires.mk "libhal-exceptions/[^1.0.0]" true]
      else base
    let reqs2 :=
      if o.use_picolibc then
        reqs1 ++ [Requires.mk ("prebuilt-picolibc/" ++ s.compiler_version) false]
      else reqs1
    Except.ok reqs2
  else
    Except.ok base

/-- The `cpp_info` record as written by `package_info`. -/
structure CppInfo where
  libs : List String
  properties : List (String × String)
  exelinkflags : List String
  deriving Repr, DecidableEq

/-- `package_info` (lines 61-72): sets `libs`, the `cmake_target_name`
property and an empty `exelinkflags`, then on baremetal + gcc with a
`"cortex-"` architecture appends the single linker-script search flag. -/
def package_info (s : Settings) (package_folder : String) : CppInfo :=
  let cpp_info : CppInfo :=
    { libs := ["libhal-armcortex"]
      properties := [("cmake_target_name", "libhal::armcortex")]
      exelinkflags := [] }
  if (s.os == "baremetal" && s.compiler == "gcc")
      && strContains s.arch "cortex-" then
    let linker_path := osPathJoin package_folder "linker_scripts"
    { cpp_info with exelinkflags := cpp_info.exelinkflags ++ ["-L" ++ linker_path] }
  else
    cpp_info

/-- `self.info.options` viewed as an association list from option name to
its boolean value, in declaration order. -/
def info_options (o : Options) : List (String × Bool) :=
  [("use_libhal_exceptions", o.use_libhal_exceptions),
   ("use_picolibc", o.use_picolibc)]

/-- `del self.info.options.<key>`: remove the (unique) binding of `key`. -/
def del_option (key : String) (opts : List (String × Bool)) :
    List (String × Bool) :=
  opts.eraseP (fun p => p.fst == key)

/-- `package_id` (lines 74-76): delete `use_picolibc`, then
`use_libhal_exceptions`, from the identity option set. -/
def package_id (opts : List (String × Bool)) : List (String × Bool) :=
  del_option "use_libhal_exceptions" (del_option "use_picolibc" opts)

/-- One full recipe evaluation: all three outputs from the same inputs. -/
def evalRecipe (base : List Requires) (s : Settings) (o : Options)
    (pf : String) : List Requires × CppInfo × List (String × Bool) :=
  (requirements base s o, package_info s pf, package_id (info_options o))

theorem data_append_eq (s t : String) : (s ++ t).data = s.data ++ t.data := by
  cases s; cases t; rfl

theorem pico_ref_ne_exc_ref (v : String) :
    "prebuilt-picolibc/" ++ v ≠ "libhal-exceptions/[^1.0.0]" := by
  intro h
  have h2 : ("prebuilt-picolibc/" ++ v).data =
      ("libhal-exceptions/[^1.0.0]" : String).data := by rw [h]
  rw [data_append_eq] at h2
  have h3 : (("prebuilt-picolibc/" : String).data ++ v.data).head? = some 'p' := by
    rw [show ("prebuilt-picolibc/" : String).data
        = 'p' :: ("rebuilt-picolibc/" : String).data from rfl]
    rfl
  rw [h2] at h3
  exact absurd h3 (by decide)

theorem exc_ref_ne_pico_ref (v : String) :
    "libhal-exceptions/[^1.0.0]" ≠ "prebuilt-picolibc/" ++ v := fun h =>
  pico_ref_ne_exc_ref v h.symm

/-- C1: on a baremetal + gcc platform with `use_picolibc = true`,
`requirements` adds the minimal-C-library requirement whose reference is
`"prebuilt-picolibc/"` followed verbatim by `str(compiler.version)`: the
requirement is in the produced list, and dropping the fixed name prefix of
its reference recovers exactly the compiler-version string. -/
theorem requirements_picolibc_version (base : List Requires) (s : Settings)
    (o : Options) (hos : s.os = "baremetal") (hc : s.compiler = "gcc")
    (hp : o.use_picolibc = true) :
    Requires.mk ("prebuilt-picolibc/" ++ s.compiler_version) false
        ∈ requirements base s o
      ∧ ("prebuilt-picolibc/" ++ s.compiler_version).data.drop
            ("prebuilt-picolibc/" : String).data.length
          = s.compiler_version.data := by
  constructor
  · unfold requirements recipeRequires
    rw [hos, hc, hp]
    cases h : o.use_libhal_exceptions <;> simp
  · rw [data_append_eq]
    exact List.drop_left _ _

/-- C1 witness: concrete evaluation on the spec's example platform. -/
theorem requirements_picolibc_version_witness :
    (Settings.mk "baremetal" "gcc" "12.2" "cortex-m4").os = "baremetal"
      ∧ (Settings.mk "baremetal" "gcc" "12.2" "cortex-m4").compiler = "gcc"
      ∧ (Options.mk true true).use_picolibc = true
      ∧ Requires.mk "prebuilt-picolibc/12.2" false
          ∈ requirements [] (Settings.mk "baremetal" "gcc" "12.2" "cortex-m4")
              (Options.mk true true) :=
  ⟨rfl, rfl, rfl,
    (requirements_picolibc_version [] (Settings.mk "baremetal" "gcc" "12.2" "cortex-m4")
      (Options.mk true true) rfl rfl rfl).1⟩

/-- C2: whenever the architecture string contains `"cortex-"` on
baremetal + gcc, `package_info` produces exactly one executable linker
flag, `"-L"` followed by the join of the package folder with
`"linker_scripts"`; whenever the architecture string does not contain
`"cortex-"`, it produces no linker flag at all. -/
theorem package_info_exelinkflags_spec (s : Settings) (pf : String) :
    (s.os = "baremetal" → s.compiler = "gcc" →
        strContains s.arch "cortex-" = true →
        (package_info s pf).exelinkflags = ["-L" ++ osPathJoin pf "linker_scripts"])
      ∧ (strContains s.arch "cortex-" = false →
        (package_info s pf).exelinkflags = []) := by
  constructor
  · intro hos hc ha
    unfold package_info
    rw [hos, hc, ha]
    rfl
  · intro ha
    unfold package_info
    rw [ha]
    simp

/-- C2 witness: concrete evaluation on both branches. -/
theorem package_info_exelinkflags_spec_witness :
    (strContains "cortex-m4" "cortex-" = true
      ∧ (package_info (Settings.mk "baremetal" "gcc" "12.2" "cortex-m4")
          "/pkg").exelinkflags
        = ["-L" ++ osPathJoin "/pkg" "linker_scripts"])
      ∧ (strContains "riscv32" "cortex-" = false
      ∧ (package_info (Settings.mk "baremetal" "gcc" "12.2" "riscv32")
          "/pkg").exelinkflags = []) :=
  ⟨⟨by decide,
    (package_info_exelinkflags_spec (Settings.mk "baremetal" "gcc" "12.2" "cortex-m4")
      "/pkg").1 rfl rfl (by decide)⟩,
   ⟨by decide,
    (package_info_exelinkflags_spec (Settings.mk "baremetal" "gcc" "12.2" "riscv32")
      "/pkg").2 (by decide)⟩⟩

/-- C3: `package_id` removes exactly the two declared option keys from the
recipe's option set whatever their boolean values (leaving the empty set,
since those are the only keys), and applying it again to its own output
changes nothing. -/
theorem package_id_removes_options (a b : Bool) :
    package_id (info_options (Options.mk a b)) = []
      ∧ package_id (package_id (info_options (Options.mk a b)))
        = package_id (info_options (Options.mk a b)) := by
  cases a <;> cases b <;> exact ⟨rfl, rfl⟩

/-- C4: off the baremetal + gcc platform, `requirements` adds nothing
beyond the bootstrap contribution and `package_info` leaves
`exelinkflags` empty, for every option set. -/
theorem non_baremetal_gcc_adds_nothing (base : List Requires) (s : Settings)
    (o : Options) (pf : String)
    (h : s.os ≠ "baremetal" ∨ s.compiler ≠ "gcc") :
    requirements base s o = base
      ∧ (package_info s pf).exelinkflags = [] := by
  have hcond : (s.os == "baremetal" && s.compiler == "gcc") = false := by
    cases h with
    | inl h => simp [beq_eq_false_iff_ne.mpr h]
    | inr h => simp [beq_eq_false_iff_ne.mpr h]
  constructor
  · unfold requirements recipeRequires
    rw [hcond]
    simp
  · unfold package_info
    rw [hcond]
    simp

/-- C4 witness: concrete non-baremetal platform. -/
theorem non_baremetal_gcc_adds_nothing_witness :
    (Settings.mk "Linux" "gcc" "12.2" "x86_64").os ≠ "baremetal"
      ∧ requirements [] (Settings.mk "Linux" "gcc" "12.2" "x86_64")
          (Options.mk true true) = []
      ∧ (package_info (Settings.mk "Linux" "gcc" "12.2" "x86_64")
          "/pkg").exelinkflags = [] :=
  ⟨by decide,
    (non_baremetal_gcc_adds_nothing [] (Settings.mk "Linux" "gcc" "12.2" "x86_64")
      (Options.mk true true) "/pkg" (Or.inl (by decide))).1,
    (non_baremetal_gcc_adds_nothing [] (Settings.mk "Linux" "gcc" "12.2" "x86_64")
      (Options.mk true true) "/pkg" (Or.inl (by decide))).2⟩

/-- C5: on baremetal + gcc, with `use_libhal_exceptions = true` the list of
requirements the recipe adds mentions the `libhal-exceptions` reference
exactly once, with `transitive_headers = true`; with the option false it
never occurs. -/
theorem requirements_exceptions_once (s : Settings) (o : Options)
    (hos : s.os = "baremetal") (hc : s.compiler = "gcc") :
    (o.use_libhal_exceptions = true →
        ((recipeRequires s o).map Requires.ref).count "libhal-exceptions/[^1.0.0]" = 1
          ∧ Requires.mk "libhal-exceptions/[^1.0.0]" true ∈ recipeRequires s o)
      ∧ (o.use_libhal_exceptions = false →
        ∀ r ∈ recipeRequires s o, r.ref ≠ "libhal-exceptions/[^1.0.0]") := by
  unfold recipeRequires
  rw [hos, hc]
  cases he : o.use_libhal_exceptions <;> cases hp : o.use_picolibc <;>
    simp [List.count_cons, pico_ref_ne_exc_ref]

/-- C5 witness: concrete evaluation with both options true. -/
theorem requirements_exceptions_once_witness :
    (Settings.mk "baremetal" "gcc" "12.2" "cortex-m4").os = "baremetal"
      ∧ (Options.mk true true).use_libhal_exceptions = true
      ∧ ((recipeRequires (Settings.mk "baremetal" "gcc" "12.2" "cortex-m4")
            (Options.mk true true)).map Requires.ref).count
          "libhal-exceptions/[^1.0.0]" = 1
      ∧ Requires.mk "libhal-exceptions/[^1.0.0]" true
          ∈ recipeRequires (Settings.mk "baremetal" "gcc" "12.2" "cortex-m4")
              (Options.mk true true) :=
  ⟨rfl, rfl,
    ((requirements_exceptions_once (Settings.mk "baremetal" "gcc" "12.2" "cortex-m4")
        (Options.mk true true) rfl rfl).1 rfl).1,
    ((requirements_exceptions_once (Settings.mk "baremetal" "gcc" "12.2" "cortex-m4")
        (Options.mk true true) rfl rfl).1 rfl).2⟩

/-- C6: `requirements` has no failure path: evaluated with an explicit
error channel it returns `Except.ok` on every input, with the same list the
pure function produces. -/
theorem requirementsE_total (base : List Requires) (s : Settings) (o : Options) :
    requirementsE base s o = Except.ok (requirements base s o) := by
  unfold requirementsE requirements recipeRequires
  cases h1 : (s.os == "baremetal" && s.compiler == "gcc") <;>
    cases h2 : o.use_libhal_exceptions <;> cases h3 : o.use_picolibc <;>
      simp [List.append_assoc]

/-- C7: recipe evaluation is deterministic: two runs on equal inputs
produce equal dependency lists, equal `cpp_info` records and equal reduced
option sets (the embedding is a pure function of its inputs). -/
theorem evalRecipe_deterministic (b₁ b₂ : List Requires) (s₁ s₂ : Settings)
    (o₁ o₂ : Options) (p₁ p₂ : String)
    (hb : b₁ = b₂) (hs : s₁ = s₂) (ho : o₁ = o₂) (hp : p₁ = p₂) :
    evalRecipe b₁ s₁ o₁ p₁ = evalRecipe b₂ s₂ o₂ p₂ := by
  rw [hb, hs, ho, hp]

/-- C7 witness: two runs on the spec's example inputs coincide. -/
theorem evalRecipe_deterministic_witness :
    ([] : List Requires) = []
      ∧ evalRecipe [] (Settings.mk "baremetal" "gcc" "12.2" "cortex-m4")
          (Options.mk true true) "/pkg"
        = evalRecipe [] (Settings.mk "baremetal" "gcc" "12.2" "cortex-m4")
          (Options.mk true true) "/pkg" :=
  ⟨rfl,
    evalRecipe_deterministic [] [] (Settings.mk "baremetal" "gcc" "12.2" "cortex-m4")
      (Settings.mk "baremetal" "gcc" "12.2" "cortex-m4")
      (Options.mk true true) (Options.mk true true) "/pkg" "/pkg"
      rfl rfl rfl rfl⟩

/-- C8: `package_info` sets the library-name list to exactly
`["libhal-armcortex"]` on every platform and package folder. -/
theorem package_info_libs (s : Settings) (pf : String) :
    (package_info s pf).libs = ["libhal-armcortex"] := by
  unfold package_info
  split <;> rfl

/-- C9: the minimal-libc requirement is added without the
`transitive_headers` marker: it is present (on baremetal + gcc with
`use_picolibc = true`) with `transitive_headers = false`, and every added
requirement carrying its reference has `transitive_headers = false` —
unlike the exception-support requirement, which carries `true`. -/
theorem picolibc_no_transitive_headers (s : Settings) (o : Options)
    (hos : s.os = "baremetal") (hc : s.compiler = "gcc")
    (hp : o.use_picolibc = true) :
    Requires.mk ("prebuilt-picolibc/" ++ s.compiler_version) false
        ∈ recipeRequires s o
      ∧ ∀ r ∈ recipeRequires s o,
          r.ref = "prebuilt-picolibc/" ++ s.compiler_version →
          r.transitive_headers = false := by
  unfold recipeRequires
  rw [hos, hc, hp]
  cases he : o.use_libhal_exceptions <;> simp [exc_ref_ne_pico_ref]

/-- C9 witness: concrete evaluation on the spec's example platform. -/
theorem picolibc_no_transitive_headers_witness :
    (Options.mk true true).use_picolibc = true
      ∧ Requires.mk "prebuilt-picolibc/12.2" false
          ∈ recipeRequires (Settings.mk "baremetal" "gcc" "12.2" "cortex-m4")
              (Options.mk true true) :=
  ⟨rfl,
    (picolibc_no_transitive_headers (Settings.mk "baremetal" "gcc" "12.2" "cortex-m4")
      (Options.mk true true) rfl rfl rfl).1⟩

/-- C10: `package_info` sets the `cmake_target_name` property to
`"libhal::armcortex"` unconditionally, on every platform descriptor and
package folder. -/
theorem package_info_cmake_target_name (s : Settings) (pf : String) :
    (package_info s pf).properties
      = [("cmake_target_name", "libhal::armcortex")] := by
  unfold package_info
  split <;> rfl

end Conanfile
